import Mathlib

/-!
Verification of `fiftyone/core/dataset.py` (dataset / view-pipeline / merge
engine).  Every definition below is a shallow embedding of a function or code
path of `src/fiftyone/core/dataset.py`; the Python source line numbers are
given next to each definition.  MongoDB aggregation operators that the code
relies on (`$reduce`, `$filter`, `$reverseArray`, `$merge`, `$skip`, ...) are
embedded by their documented list/document semantics.
-/

set_option autoImplicit false

namespace Fiftyone

/-! ## Label-list element merge (`_merge_label_list_field`, dataset.py:5263-5356)

A label-list field holds an embedded list of labeled elements, each with a
stable element id (`_id` in the stored document).  `_merge_label_list_field`
builds a MongoDB expression over the two element arrays; the definitions below
are the evaluation of that expression on concrete element lists, mirroring the
`$reduce` / `$reverseArray` / `$map` structure of the source. -/

/-- One element of a label-list field: the stored `_id` of the element
(modelled as a `Nat`) and its payload (the `label` attribute). -/
structure LabelElem where
  eid : Nat
  label : String
deriving DecidableEq, Repr

/-- dataset.py:5272-5278 — `new_ids`: `$map` over the incoming element array
extracting `$$this._id`. -/
def newIds (newElems : List LabelElem) : List Nat :=
  newElems.map (·.eid)

/-- dataset.py:5268-5306 (the `overwrite=True` branch of
`_merge_label_list_field`) — the `elements` expression:
`$reverseArray` of a `$reduce` whose input is `$reverseArray` of the existing
elements, whose initial value is `$reverseArray` of the incoming elements, and
whose accumulator appends each existing element whose `_id` is not among
`new_ids`.  `$reduce` is a left fold. -/
def mergeLabelElemsOverwrite (existing newElems : List LabelElem) : List LabelElem :=
  (existing.reverse.foldl
    (fun value this =>
      if this.eid ∈ newIds newElems then value else value ++ [this])
    newElems.reverse).reverse

/-- dataset.py:5310-5318 — `existing_ids`: `$map` over the existing element
array extracting `$$this._id`. -/
def existingIds (existing : List LabelElem) : List Nat :=
  existing.map (·.eid)

/-- dataset.py:5307-5340 (the `overwrite=False` branch of
`_merge_label_list_field`) — the `elements` expression: a `$reduce` whose
input is the incoming element array, whose initial value is the existing
element array, and whose accumulator appends each incoming element whose
`_id` is not among `existing_ids`. -/
def mergeLabelElemsKeep (existing newElems : List LabelElem) : List LabelElem :=
  newElems.foldl
    (fun value this =>
      if this.eid ∈ existingIds existing then value else value ++ [this])
    existing

/-- A `$reduce` that appends exactly the elements failing a fixed predicate
accumulates the filtered input after the initial value. -/
theorem foldl_append_if_not {α : Type} (p : α → Prop) [DecidablePred p] :
    ∀ (l init : List α),
      l.foldl (fun value this => if p this then value else value ++ [this]) init
        = init ++ l.filter (fun x => decide ¬ p x) := by
  intro l
  induction l with
  | nil => intro init; simp
  | cons a t ih =>
    intro init
    by_cases h : p a
    · simp [List.foldl_cons, h, ih]
    · simp [List.foldl_cons, h, ih]

theorem mergeLabelElemsOverwrite_eq (existing newElems : List LabelElem) :
    mergeLabelElemsOverwrite existing newElems
      = existing.filter (fun e => decide ¬ e.eid ∈ newIds newElems) ++ newElems := by
  unfold mergeLabelElemsOverwrite
  rw [foldl_append_if_not (fun e => e.eid ∈ newIds newElems) existing.reverse
    newElems.reverse]
  rw [List.reverse_append, List.reverse_reverse, ← List.filter_reverse,
    List.reverse_reverse]

theorem mergeLabelElemsKeep_eq (existing newElems : List LabelElem) :
    mergeLabelElemsKeep existing newElems
      = existing ++ newElems.filter (fun e => decide ¬ e.eid ∈ existingIds existing) := by
  unfold mergeLabelElemsKeep
  rw [foldl_append_if_not (fun e => e.eid ∈ existingIds existing) newElems existing]

/-- C1: label-list merge merges at the element level by element id.  On the
spec's example — destination `[{id:1,label:"a"}]`, incoming
`[{id:1,label:"b"},{id:2,label:"c"}]` — `overwrite=True` yields
`[{id:1,label:"b"},{id:2,label:"c"}]` and `overwrite=False` yields
`[{id:1,label:"a"},{id:2,label:"c"}]`; in general, with `overwrite` the
result is the existing elements whose id is not matched by an incoming
element, in their original relative order, followed by all incoming elements,
and without `overwrite` the result is the existing elements followed by the
incoming elements whose id is not already present. -/
theorem labelListMergeElementLevel :
    (mergeLabelElemsOverwrite [⟨1, "a"⟩] [⟨1, "b"⟩, ⟨2, "c"⟩] = [⟨1, "b"⟩, ⟨2, "c"⟩])
    ∧ (mergeLabelElemsKeep [⟨1, "a"⟩] [⟨1, "b"⟩, ⟨2, "c"⟩] = [⟨1, "a"⟩, ⟨2, "c"⟩])
    ∧ (∀ existing newElems : List LabelElem,
        mergeLabelElemsOverwrite existing newElems
          = existing.filter (fun e => decide ¬ e.eid ∈ newIds newElems) ++ newElems)
    ∧ (∀ existing newElems : List LabelElem,
        mergeLabelElemsKeep existing newElems
          = existing ++ newElems.filter (fun e => decide ¬ e.eid ∈ existingIds existing)) := by
  refine ⟨by decide, by decide, mergeLabelElemsOverwrite_eq, mergeLabelElemsKeep_eq⟩

/-! ## View pipeline compilation (`Dataset._pipeline`, dataset.py:3936-3989) -/

/-- The media types of `fiftyone.core.media` relevant to `dataset.py`. -/
inductive MediaType
  | image
  | video
deriving DecidableEq, Repr

/-- One aggregation pipeline step, restricted to the shapes that
`Dataset._pipeline` itself emits; user-supplied steps are opaque. -/
inductive Stage
  /-- `{$lookup: {from, let: {letVar: letVal}, pipeline: [{$match: {$expr:
  {$eq: [matchL, matchR]}}}, {$sort: {sortField: 1 or -1}}], as: asField}}` -/
  | lookup (fromColl letVar letVal matchL matchR sortField : String)
      (sortAsc : Bool) (asField : String)
  /-- `{$project: {field: incl}}` (`incl` is the True/False inclusion flag) -/
  | project (field : String) (incl : Bool)
  /-- `{$unwind: path}` -/
  | unwind (path : String)
  /-- `{$replaceRoot: {newRoot: root}}` -/
  | replaceRoot (root : String)
  /-- an opaque user/caller-supplied pipeline step -/
  | user (n : Nat)
deriving DecidableEq, Repr

/-- dataset.py:3955-3973 — the frame-attachment join prepended by
`Dataset._pipeline`: a `$lookup` from the frame collection binding
`sample_id := $_id`, matching `$$sample_id == $_sample_id`, sorted ascending
by `frame_number`, materialized as the `frames` array. -/
def frameLookupStage (frameColl : String) : Stage :=
  .lookup frameColl "sample_id" "$_id" "$$sample_id" "$_sample_id"
    "frame_number" true "frames"

/-- dataset.py:3936-3989 — `Dataset._pipeline`.  `mediaType` is the dataset's
media type (`none` when unset), `frameColl` its frame collection name,
`pipeline` the caller's steps (`None` modelled as `[]`).  The sequential flag
rewrites mirror the source order exactly: non-video forces all three frame
flags off; `detach_frames` is cleared when frames are not attached;
`frames_only` forces attachment on. -/
def datasetPipeline (mediaType : Option MediaType) (frameColl : String)
    (pipeline : List Stage)
    (attachFrames detachFrames framesOnly : Bool) : List Stage :=
  let attachFrames := if mediaType ≠ some .video then false else attachFrames
  let detachFrames := if mediaType ≠ some .video then false else detachFrames
  let framesOnly := if mediaType ≠ some .video then false else framesOnly
  let detachFrames := if ¬ attachFrames then false else detachFrames
  let attachFrames := if framesOnly then true else attachFrames
  let base := (if attachFrames then [frameLookupStage frameColl] else []) ++ pipeline
  if detachFrames then
    base ++ [.project "frames" false]
  else if framesOnly then
    base ++ [.project "frames" true, .unwind "$frames", .replaceRoot "$frames"]
  else
    base

/-- C4 counterexample: on a video dataset, requesting `attach_frames=True`,
`detach_frames=True` and `frames_only=True` together compiles to a pipeline
that ends with the frame-detachment projection, not the project/unwind/
replaceRoot frames-only suffix, because the detach branch takes precedence;
so the claim's "for a video dataset with frames_only=True ... ends with the
suffix" is false as stated. -/
theorem pipelineFramesOnlyDetachPrecedence :
    datasetPipeline (some .video) "frames.c" [] true true true
        = [frameLookupStage "frames.c", .project "frames" false]
    ∧ (datasetPipeline (some .video) "frames.c" [] true true true).getLast?
        = some (.project "frames" false) := by
  decide

/-- C4 (amended): for a non-video dataset all three frame flags are forced
off and the compiled pipeline is exactly the user stages, with no frame-join
step; for a video dataset with `frames_only=True`, provided `attach_frames`
and `detach_frames` are not both set (in which case the detach projection
takes precedence), attachment is forced on and the compiled pipeline begins
with the frame `$lookup` join (matching sample `_id` against the frame
back-reference `_sample_id`, sorted ascending by `frame_number`) and ends
with the project-to-frames, `$unwind`, `$replaceRoot` suffix. -/
theorem pipelineFlagForcingRules (mt : Option MediaType) (fc : String)
    (p : List Stage) (a d f : Bool) :
    (mt ≠ some .video → datasetPipeline mt fc p a d f = p)
    ∧ ((a = false ∨ d = false) →
        datasetPipeline (some .video) fc p a d true
          = frameLookupStage fc
              :: (p ++ [.project "frames" true, .unwind "$frames",
                        .replaceRoot "$frames"])) := by
  constructor
  · intro h
    simp [datasetPipeline, h]
  · rintro (ha | hd)
    · subst ha; cases d <;> simp [datasetPipeline, frameLookupStage]
    · subst hd; cases a <;> simp [datasetPipeline, frameLookupStage]

/-- Witness for the amended C4 theorem at concrete inputs. -/
theorem pipelineFlagForcingRules_witness :
    datasetPipeline (some .image) "frames.c" [.user 0] true true true = [.user 0]
    ∧ datasetPipeline (some .video) "frames.c" [.user 0] false false true
        = frameLookupStage "frames.c"
            :: ([.user 0] ++ [.project "frames" true, .unwind "$frames",
                              .replaceRoot "$frames"]) :=
  ⟨(pipelineFlagForcingRules (some .image) "frames.c" [.user 0] true true true).1
      (by decide),
   (pipelineFlagForcingRules (some .video) "frames.c" [.user 0] false false true).2
      (Or.inl rfl)⟩

/-! ## Deleted-dataset guard (`Dataset.__getattribute__`, dataset.py:285-302,
and `Dataset.delete`, dataset.py:2092-2103) -/

/-- Outcome of one attribute access on a `Dataset` instance. -/
inductive AttrAccess
  /-- the access goes through to the underlying attribute -/
  | ok
  /-- `ValueError("Dataset '<name>' is deleted")` -/
  | deletedError (dsName : String)
deriving DecidableEq, Repr

/-- `name.startswith("__")` over the character list of the attribute name. -/
def isDunder (attr : String) : Bool :=
  match attr.data with
  | '_' :: '_' :: _ => true
  | _ => false

/-- dataset.py:291-296 — the attribute names `Dataset.__getattribute__`
always lets through: any dunder attribute plus `name`, `deleted`, `_deleted`
and `_doc` (the attributes needed to determine the dataset's name and whether
it is deleted). -/
def deletedGuardAllows (attr : String) : Bool :=
  isDunder attr
    || attr = "name" || attr = "deleted" || attr = "_deleted" || attr = "_doc"

/-- dataset.py:285-302 — `Dataset.__getattribute__`: whitelisted attributes
resolve unconditionally; any other attribute on a dataset whose `_deleted`
flag is set raises `ValueError("Dataset '<name>' is deleted")`. -/
def datasetGetattribute (dsName : String) (deleted : Bool) (attr : String) :
    AttrAccess :=
  if deletedGuardAllows attr then .ok
  else if deleted then .deletedError dsName
  else .ok

/-- The operations that touch the `_deleted` flag.  `Dataset.delete`
(dataset.py:2092-2103) sets `self._deleted = True`; no attribute access or
other modelled operation ever clears it. -/
inductive DsOp
  | deleteOp
  | accessOp (attr : String)

/-- Effect of one operation on the `_deleted` flag: `delete` sets it and
attribute access leaves it unchanged (dataset.py:2103). -/
def stepDeleted (deleted : Bool) : DsOp → Bool
  | .deleteOp => true
  | .accessOp _ => deleted

/-- The `_deleted` flag after a sequence of operations. -/
def runDeleted (deleted : Bool) (ops : List DsOp) : Bool :=
  ops.foldl stepDeleted deleted

/-- C5 counterexample: on a deleted dataset, reading the `_doc` attribute —
which is neither `name` nor `deleted` — succeeds rather than failing with a
Deleted error, because `__getattribute__` whitelists `_doc`, `_deleted` and
all dunder attributes alongside `name` and `deleted`; so "every operation
other than reading the name and deleted attributes fails" is false as
stated. -/
theorem deletedGuardDocAccess :
    datasetGetattribute "d" true "_doc" = .ok
    ∧ datasetGetattribute "d" true "__class__" = .ok := by
  decide

/-- C5 (amended): after `Dataset.delete()` sets the `_deleted` flag, every
attribute access other than the whitelisted attributes — `name`, `deleted`,
the private `_deleted`/`_doc` attributes backing them, and dunder attributes
— fails immediately with a Deleted `ValueError` naming the dataset, and the
state is permanent for the instance: no subsequent modelled operation clears
the flag. -/
theorem deletedGuardBlocksAll (dsName attr : String)
    (h : deletedGuardAllows attr = false) :
    datasetGetattribute dsName true attr = .deletedError dsName
    ∧ (∀ ops : List DsOp, runDeleted true ops = true)
    ∧ stepDeleted false .deleteOp = true := by
  refine ⟨by simp [datasetGetattribute, h], ?_, rfl⟩
  intro ops
  induction ops with
  | nil => rfl
  | cons op rest ih =>
    cases op <;> simpa [runDeleted, stepDeleted] using ih

/-- Witness for the amended C5 theorem: `count` is not whitelisted, so it
fails with the Deleted error on a deleted dataset. -/
theorem deletedGuardBlocksAll_witness :
    datasetGetattribute "d" true "count" = .deletedError "d"
    ∧ (∀ ops : List DsOp, runDeleted true ops = true)
    ∧ stepDeleted false .deleteOp = true :=
  deletedGuardBlocksAll "d" "count" (by decide)

/-! ## Numeric indexing (`Dataset.__getitem__`, dataset.py:254-280) -/

/-- The kinds of argument `Dataset.__getitem__` distinguishes: an integral
index, a slice, or an id/filepath string. -/
inductive ItemKey
  | intKey (n : Int)
  | sliceKey (start stop : Option Int)
  | strKey (s : String)
deriving DecidableEq, Repr

/-- Result of `Dataset.__getitem__` together with whether the sample
collection was queried. -/
inductive GetitemResult
  /-- `ValueError("Accessing dataset samples by numeric index is not supported ...")` -/
  | valueError
  /-- a sliced view (no database query) -/
  | viewSlice (start stop : Option Int)
  /-- the sample found by id or filepath -/
  | sample (sid : Nat)
  /-- `KeyError("No sample found with ...")` -/
  | keyError (s : String)
deriving DecidableEq, Repr

/-- dataset.py:254-280 — `Dataset.__getitem__` over a sample collection
modelled as a list of `(stringKey, sampleId)` pairs (a string key is matched
as `_id` or `filepath` by `find_one`).  Returns the outcome and a flag
recording whether the database was queried; the integral branch raises
before any query is issued. -/
def datasetGetitem (samples : List (String × Nat)) (k : ItemKey) :
    GetitemResult × Bool :=
  match k with
  | .intKey _ => (.valueError, false)
  | .sliceKey a b => (.viewSlice a b, false)
  | .strKey s =>
    match samples.find? (fun p => p.1 = s) with
    | some p => (.sample p.2, true)
    | none => (.keyError s, true)

/-- C9: for every integral argument, `Dataset.__getitem__` raises a
`ValueError` without querying the database, so the dataset is unchanged
(numeric positional indexing of samples is never supported). -/
theorem getitemIntegerRaises (samples : List (String × Nat)) (n : Int) :
    datasetGetitem samples (.intKey n) = (.valueError, false) :=
  rfl

/-! ## Cloning (`Dataset.clone` → `_clone_dataset_or_view`,
dataset.py:2056-2078 and 4362-4409) -/

/-- The fields of the backing dataset document affected by a clone. -/
structure DatasetDoc where
  name : String
  persistent : Bool
  sampleCollectionName : String
  evaluations : List String
  brainMethods : List String
deriving DecidableEq, Repr

/-- dataset.py:4382-4389 — the cloned dataset document: a copy of the source
document with the new name, `persistent = False`, fresh collection name, and
run results emptied (they are deep-copied separately at the end). -/
def cloneDoc (src : DatasetDoc) (newName newColl : String) : DatasetDoc :=
  { src with
      name := newName
      persistent := false
      sampleCollectionName := newColl
      evaluations := []
      brainMethods := [] }

/-- dataset.py:4362-4409 — `_clone_dataset_or_view` at the dataset-document
level: fails with "Dataset '<name>' already exists" when the name is taken,
otherwise saves the cloned document alongside the existing ones.  The
registry of dataset documents is modelled as a list. -/
def cloneDatasetOrView (registry : List DatasetDoc) (src : DatasetDoc)
    (newName newColl : String) : Except String (DatasetDoc × List DatasetDoc) :=
  if registry.any (fun d => d.name = newName) then
    .error newName
  else
    .ok (cloneDoc src newName newColl, registry ++ [cloneDoc src newName newColl])

/-- C10: a successful `Dataset.clone` always produces a clone whose
`persistent` flag is `False`, regardless of the source's flag, and the
operation leaves every pre-existing dataset document — in particular the
source's — unchanged (the new registry is the old one plus the clone). -/
theorem clonePersistentFalse (registry : List DatasetDoc) (src : DatasetDoc)
    (newName newColl : String) (doc : DatasetDoc) (registry2 : List DatasetDoc)
    (h : cloneDatasetOrView registry src newName newColl = .ok (doc, registry2)) :
    doc.persistent = false ∧ registry2 = registry ++ [doc] := by
  unfold cloneDatasetOrView at h
  by_cases hn : registry.any (fun d => d.name = newName)
  · simp [hn] at h
  · simp [hn] at h
    obtain ⟨h1, h2⟩ := h
    subst h1
    exact ⟨rfl, h2.symm⟩

/-- Witness for C10: cloning a persistent source yields a non-persistent
clone. -/
theorem clonePersistentFalse_witness :
    (cloneDoc ⟨"src", true, "c0", ["eval1"], []⟩ "dst" "c1").persistent = false :=
  (clonePersistentFalse [⟨"src", true, "c0", ["eval1"], []⟩]
    ⟨"src", true, "c0", ["eval1"], []⟩ "dst" "c1"
    (cloneDoc ⟨"src", true, "c0", ["eval1"], []⟩ "dst" "c1")
    ([⟨"src", true, "c0", ["eval1"], []⟩]
      ++ [cloneDoc ⟨"src", true, "c0", ["eval1"], []⟩ "dst" "c1"])
    (by simp [cloneDatasetOrView])).1

/-! ## Cursor-expired recovery (`Dataset._iter_samples`, dataset.py:1271-1287)

`_iter_samples` iterates the aggregation cursor, counting fully consumed
documents in `index`; when the server raises `CursorNotFound` it appends
`{"$skip": index}` to the pipeline and recurses.  The backing store is
modelled by `evalPipeline` (the documented `$skip` semantics is dropping a
prefix) together with an expiry schedule: the `n`-th entry of the schedule
says after how many delivered documents the `n`-th cursor expires; when the
schedule is exhausted the cursor runs to completion. -/

/-- A pipeline step as seen by `_iter_samples`: the caller-supplied pipeline
is opaque, and recovery appends `$skip` steps to it. -/
inductive IterStep
  /-- `{"$skip": n}` -/
  | skipStep (n : Nat)
deriving DecidableEq, Repr

/-- Backing-store evaluation of the appended steps over the result list of
the caller's pipeline: `$skip n` drops the first `n` documents. -/
def evalPipeline (docs : List Nat) : List IterStep → List Nat
  | [] => docs
  | .skipStep n :: rest => evalPipeline (docs.drop n) rest

/-- dataset.py:1271-1287 — `Dataset._iter_samples` under an expiry schedule.
`docs` is the result of the caller's pipeline, `appended` the `$skip` steps
added so far (initially `[]`).  With no pending expiry the cursor yields
everything; otherwise the cursor yields `k` documents, raises
`CursorNotFound`, and the generator recurses on the same pipeline with
`{"$skip": k}` appended (`k` = number of samples already consumed). -/
def iterSamples (docs : List Nat) (appended : List IterStep) :
    List Nat → List Nat
  | [] => evalPipeline docs appended
  | k :: sched =>
    (evalPipeline docs appended).take k
      ++ iterSamples docs (appended ++ [.skipStep k]) sched

theorem evalPipeline_append_skip (docs : List Nat) (p : List IterStep) (k : Nat) :
    evalPipeline docs (p ++ [.skipStep k]) = (evalPipeline docs p).drop k := by
  induction p generalizing docs with
  | nil => rfl
  | cons s rest ih => cases s; simpa [evalPipeline] using ih _

/-- C7: under every expiry schedule, the caller observes exactly the full
result sequence of its pipeline, in order and without interruption: each
cursor-expired failure is recovered locally by re-issuing the same pipeline
with an appended `$skip` equal to the number of samples already consumed,
and no failure is surfaced. -/
theorem iterSamplesRecoversAll (docs : List Nat) (sched : List Nat) :
    iterSamples docs [] sched = docs := by
  suffices h : ∀ (sched : List Nat) (appended : List IterStep),
      iterSamples docs appended sched = evalPipeline docs appended by
    exact h sched []
  intro sched
  induction sched with
  | nil => intro appended; rfl
  | cons k rest ih =>
    intro appended
    rw [iterSamples, ih, evalPipeline_append_skip, List.take_append_drop]

/-! ## Schema expansion and media type
(`Dataset.media_type` setter dataset.py:325-345, `Dataset._expand_schema`
dataset.py:4069-4094, `Dataset._validate_media_type` dataset.py:4117-4122,
`Dataset._validate_samples` dataset.py:4144-4162,
`Dataset._add_samples_batch` dataset.py:1402-1430) -/

/-- Runtime field values (the scalar fragment sufficient for the claims
about schema expansion). -/
inductive Val
  | vint (n : Int)
  | vstr (s : String)
  | vbool (b : Bool)
deriving DecidableEq, Repr

/-- Declared field types, as inferred by `add_implied_field` from a runtime
value. -/
inductive FType
  | intField
  | strField
  | boolField
deriving DecidableEq, Repr

/-- Type inference from a runtime value (`add_implied_field`). -/
def implyFieldType : Val → FType
  | .vint _ => .intField
  | .vstr _ => .strField
  | .vbool _ => .boolField

/-- An in-memory sample being inserted: its media type and its field
name/value pairs (`none` is a present field whose value is `None`). -/
structure SampleIn where
  mediaType : MediaType
  fields : List (String × Option Val)
deriving DecidableEq, Repr

/-- The dataset state relevant to insertion: media type (`None` until set),
sample count, and the declared sample-field schema in declaration order. -/
structure DatasetState where
  mediaType : Option MediaType
  count : Nat
  schema : List (String × FType)
deriving DecidableEq, Repr

/-- Errors raised on the insertion paths. -/
inductive InsertErr
  /-- `ValueError` (non-empty dataset, unknown media type, or schema
  violation) -/
  | valueError
  /-- `fom.MediaTypeError` -/
  | mediaTypeError
deriving DecidableEq, Repr

/-- dataset.py:325-345 — the `media_type` setter: raises
`ValueError("Cannot set media type of a non-empty dataset")` when the
dataset has samples (`if self:` is `len(self) > 0`), otherwise stores the
new media type.  (The `fom.MEDIA_TYPES` membership test always passes for
the embedded `MediaType`.) -/
def setMediaType (ds : DatasetState) (mt : MediaType) :
    Except InsertErr DatasetState :=
  if ds.count ≠ 0 then .error .valueError
  else .ok { ds with mediaType := some mt }

/-- dataset.py:4117-4122 — `Dataset._validate_media_type`: raises
`MediaTypeError` when the sample's media type differs from the dataset's. -/
def validateMediaType (dsMedia : Option MediaType) (s : SampleIn) :
    Except InsertErr Unit :=
  if dsMedia ≠ some s.mediaType then .error .mediaTypeError else .ok ()

/-- True when a field of this name is declared in the schema. -/
def schemaHas (schema : List (String × FType)) (f : String) : Bool :=
  schema.any (fun p => p.1 = f)

/-- dataset.py:4078-4091 — the inner loop of `_expand_schema` for one
sample: each field other than `_id` that is not yet declared and whose value
is not `None` is declared with the type implied by its value; `None`-valued
fields are skipped. -/
def expandOneSample (schema : List (String × FType)) (s : SampleIn) :
    List (String × FType) :=
  s.fields.foldl
    (fun sch fv =>
      if fv.1 = "_id" then sch
      else if schemaHas sch fv.1 then sch
      else
        match fv.2 with
        | none => sch
        | some v => sch ++ [(fv.1, implyFieldType v)])
    schema

/-- dataset.py:4069-4094 — `Dataset._expand_schema`: for each sample in
order, validate its media type, then declare its undeclared non-`None`
fields. -/
def expandSchema (ds : DatasetState) (samples : List SampleIn) :
    Except InsertErr DatasetState :=
  samples.foldlM
    (fun st s => do
      let _ ← validateMediaType st.mediaType s
      pure { st with schema := expandOneSample st.schema s })
    ds

/-- dataset.py:4144-4162 — `Dataset._validate_samples`: a field absent from
the schema with a non-`None` value is an error; a declared field's non-`None`
value must match the declared type (`field.validate`); `None` values pass
(the modelled fields are nullable). -/
def validateSamples (ds : DatasetState) (samples : List SampleIn) :
    Except InsertErr Unit :=
  samples.forM fun s =>
    s.fields.forM fun fv =>
      match (ds.schema.find? (fun p => p.1 = fv.1)), fv.2 with
      | none, some _ => .error .valueError
      | none, none => .ok ()
      | some _, none => .ok ()
      | some p, some v =>
        if implyFieldType v = p.2 then .ok () else .error .valueError

/-- dataset.py:1402-1430 — `Dataset._add_samples_batch`: set the media type
from the first sample when unset, expand the schema when `expand_schema`,
validate when `validate`, then insert (the count grows by the batch size);
each step's error aborts the batch. -/
def addSamplesBatch (ds : DatasetState) (samples : List SampleIn)
    (expandSch validate : Bool) : Except InsertErr DatasetState :=
  match
    (match ds.mediaType, samples with
     | none, s :: _ => setMediaType ds s.mediaType
     | _, _ => .ok ds) with
  | .error e => .error e
  | .ok ds1 =>
    match (if expandSch then expandSchema ds1 samples else .ok ds1) with
    | .error e => .error e
    | .ok ds2 =>
      match (if validate then validateSamples ds2 samples else .ok ()) with
      | .error e => .error e
      | .ok _ => .ok { ds2 with count := ds2.count + samples.length }

/-- A two-stage `Except` computation that succeeds did so through a
successful first stage whose value fed the second stage. -/
theorem exceptOkOfBind {ε α β : Type} {step1 : Except ε α}
    {step2 : α → Except ε β} {out : β} :
    step1 >>= step2 = .ok out → ∃ mid, step1 = .ok mid ∧ step2 mid = .ok out := by
  intro h
  cases hs : step1 with
  | error e =>
    rw [hs] at h
    exact absurd h (fun hc => Except.noConfusion hc)
  | ok mid =>
    rw [hs] at h
    exact ⟨mid, rfl, h⟩

/-- `schemaHas` is preserved by the declaration fold of `expandOneSample`. -/
theorem schemaHas_expandOneSample_mono (s : SampleIn) :
    ∀ (sch : List (String × FType)) (f : String),
      schemaHas sch f = true → schemaHas (expandOneSample sch s) f = true := by
  show ∀ sch f, _ → schemaHas (s.fields.foldl _ sch) f = true
  induction s.fields with
  | nil => intro sch f h; exact h
  | cons fv rest ih =>
    intro sch f h
    rw [List.foldl_cons]
    apply ih
    by_cases h1 : fv.1 = "_id"
    · simpa [h1] using h
    · by_cases h2 : schemaHas sch fv.1
      · simpa [h1, h2] using h
      · cases hv : fv.2 with
        | none => simpa [h1, h2, hv] using h
        | some v =>
          simp only [h1, h2, hv, if_neg, if_false, Bool.false_eq_true]
          simp only [schemaHas, List.any_append] at h ⊢
          simp [h]

/-- After `expandOneSample`, every non-`None` field of the sample other than
`_id` is declared. -/
theorem schemaHas_expandOneSample (s : SampleIn) :
    ∀ (sch : List (String × FType)) (f : String) (v : Val),
      (f, some v) ∈ s.fields → f ≠ "_id" →
      schemaHas (expandOneSample sch s) f = true := by
  have mono := schemaHas_expandOneSample_mono
  show ∀ sch f v, (f, some v) ∈ s.fields → _ →
    schemaHas (s.fields.foldl _ sch) f = true
  induction s.fields with
  | nil => intro sch f v h; exact absurd h (List.not_mem_nil _)
  | cons fv rest ih =>
    intro sch f v hmem hid
    rw [List.foldl_cons]
    rcases List.mem_cons.mp hmem with heq | htail
    · subst heq
      by_cases h2 : schemaHas sch f
      · have : schemaHas (if f = "_id" then sch
            else if schemaHas sch f then sch
            else sch ++ [(f, implyFieldType v)]) f = true := by
          simp [hid, h2]
        exact mono ⟨s.mediaType, rest⟩ _ f this
      · have : schemaHas (if f = "_id" then sch
            else if schemaHas sch f then sch
            else sch ++ [(f, implyFieldType v)]) f = true := by
          simp [hid, h2, schemaHas, List.any_append]
          simp [schemaHas] at h2
          simp [h2]
        exact mono ⟨s.mediaType, rest⟩ _ f this
    · exact ih _ f v htail hid

/-- `expandSchema` only ever declares more fields. -/
theorem schemaHas_expandSchema_mono :
    ∀ (samples : List SampleIn) (ds st : DatasetState) (f : String),
      expandSchema ds samples = .ok st →
      schemaHas ds.schema f = true → schemaHas st.schema f = true := by
  intro samples
  induction samples with
  | nil =>
    intro ds st f h hf
    simp only [expandSchema, List.foldlM_nil] at h
    cases h
    exact hf
  | cons s rest ih =>
    intro ds st f h hf
    simp only [expandSchema, List.foldlM_cons] at h
    obtain ⟨a, ha, hrest⟩ := exceptOkOfBind h
    obtain ⟨u, _, ha2⟩ := exceptOkOfBind ha
    cases ha2
    exact ih _ st f hrest (schemaHas_expandOneSample_mono s ds.schema f hf)

/-- After a successful `expandSchema`, every non-`None` field (other than
`_id`) of every sample in the batch is declared. -/
theorem schemaHas_expandSchema :
    ∀ (samples : List SampleIn) (ds st : DatasetState) (s : SampleIn)
      (f : String) (v : Val),
      expandSchema ds samples = .ok st →
      s ∈ samples → (f, some v) ∈ s.fields → f ≠ "_id" →
      schemaHas st.schema f = true := by
  intro samples
  induction samples with
  | nil => intro ds st s f v h hs; exact absurd hs (List.not_mem_nil _)
  | cons s0 rest ih =>
    intro ds st s f v h hs hmem hid
    simp only [expandSchema, List.foldlM_cons] at h
    obtain ⟨a, ha, hrest⟩ := exceptOkOfBind h
    obtain ⟨u, _, ha2⟩ := exceptOkOfBind ha
    cases ha2
    rcases List.mem_cons.mp hs with heq | htail
    · subst heq
      exact schemaHas_expandSchema_mono rest _ st f hrest
        (schemaHas_expandOneSample s ds.schema f v hmem hid)
    · exact ih _ st s f v hrest htail hmem hid

/-- The media-setting step of `_add_samples_batch` never changes the
schema. -/
theorem addSamplesBatch_media_schema (ds : DatasetState) (mt : MediaType)
    (ds1 : DatasetState) (h : setMediaType ds mt = .ok ds1) :
    ds1.schema = ds.schema := by
  unfold setMediaType at h
  by_cases hc : ds.count ≠ 0
  · simp [hc] at h
  · simp [hc] at h
    cases h
    rfl

/-- C3 counterexample: a sample inserted with `expand_schema=True` carrying
a present field `foo` whose value is `None` is accepted, but `foo` is not
added to the schema — `_expand_schema` skips `None`-valued fields — so
"including fields whose value on every inserted sample is None" is false as
stated. -/
theorem expandSchemaSkipsNoneField :
    addSamplesBatch ⟨some .image, 0, [("filepath", .strField)]⟩
        [⟨.image, [("filepath", some (.vstr "a.jpg")), ("foo", none)]⟩] true true
      = .ok ⟨some .image, 1, [("filepath", .strField)]⟩
    ∧ schemaHas [("filepath", .strField)] "foo" = false :=
  ⟨rfl, rfl⟩

/-- C3 (amended): for a batch inserted with `expand_schema=True` that
completes successfully, every field (other than the identity field `_id`)
that has a non-`None` value on at least one inserted sample appears in the
dataset's resulting field schema; fields whose value is `None` on every
inserted sample are treated as absent and are not declared. -/
theorem expandSchemaDeclaresNonNullFields (ds ds2 : DatasetState)
    (samples : List SampleIn) (validate : Bool) (s : SampleIn)
    (f : String) (v : Val)
    (h : addSamplesBatch ds samples true validate = .ok ds2)
    (hs : s ∈ samples) (hf : (f, some v) ∈ s.fields) (hid : f ≠ "_id") :
    schemaHas ds2.schema f = true := by
  unfold addSamplesBatch at h
  split at h
  · cases h
  next ds1 hm =>
    rw [if_pos rfl] at h
    split at h
    · cases h
    next dsx hx =>
      split at h
      · cases h
      next u hv =>
        cases h
        exact schemaHas_expandSchema samples ds1 dsx s f v hx hs hf hid

/-- Witness for the amended C3 theorem: inserting a sample with a non-`None`
field `foo` declares `foo`. -/
theorem expandSchemaDeclaresNonNullFields_witness :
    schemaHas (DatasetState.schema
        ⟨some .image, 1, [("filepath", .strField), ("foo", .intField)]⟩) "foo"
      = true :=
  expandSchemaDeclaresNonNullFields
    ⟨some .image, 0, [("filepath", .strField)]⟩
    ⟨some .image, 1, [("filepath", .strField), ("foo", .intField)]⟩
    [⟨.image, [("filepath", some (.vstr "a.jpg")), ("foo", some (.vint 3))]⟩]
    true
    ⟨.image, [("filepath", some (.vstr "a.jpg")), ("foo", some (.vint 3))]⟩
    "foo" (.vint 3) rfl (List.mem_singleton.mpr rfl)
    (by simp) (by simp)

/-- C8 counterexample: the media type of an empty dataset can be set twice,
to two different values — the setter only rejects non-empty datasets — and a
sample whose media type disagrees with the dataset's is inserted without any
`MediaTypeError` when `expand_schema=False` (media validation lives in
`_expand_schema` only); so "set at most once / immutable once set, and every
inserted sample is validated" is false as stated. -/
theorem mediaTypeResettableWhileEmpty :
    (match setMediaType ⟨none, 0, []⟩ .image with
      | .ok ds => setMediaType ds .video
      | .error e => .error e)
      = .ok ⟨some .video, 0, []⟩
    ∧ addSamplesBatch ⟨some .image, 1, [("filepath", .strField)]⟩
        [⟨.video, [("filepath", some (.vstr "v.mp4"))]⟩] false true
      = .ok ⟨some .image, 2, [("filepath", .strField)]⟩ :=
  ⟨rfl, rfl⟩

/-- C8 (amended): the media type is only guarded by emptiness — once the
dataset is non-empty the setter always fails with a `ValueError` (while the
dataset is empty it may be reassigned) — and a sample inserted through the
`expand_schema=True` path whose media type differs from the dataset's fails
with a `MediaTypeError`. -/
theorem mediaTypeGuardRules (ds : DatasetState) (mt m : MediaType)
    (s : SampleIn) (rest : List SampleIn) (validate : Bool)
    (hcount : ds.count ≠ 0) (hm : ds.mediaType = some m)
    (hs : s.mediaType ≠ m) :
    setMediaType ds mt = .error .valueError
    ∧ addSamplesBatch ds (s :: rest) true validate = .error .mediaTypeError := by
  constructor
  · simp [setMediaType, hcount]
  · have hv : validateMediaType ds.mediaType s = .error .mediaTypeError := by
      simp only [validateMediaType, hm]
      rw [if_pos]
      simp only [ne_eq, Option.some.injEq]
      exact fun hc => hs hc.symm
    unfold addSamplesBatch
    rw [hm]
    simp only [if_true]
    have hx : expandSchema ds (s :: rest) = .error .mediaTypeError := by
      simp only [expandSchema, List.foldlM_cons]
      rw [show (do
            let _ ← validateMediaType ds.mediaType s
            pure { ds with schema := expandOneSample ds.schema s } :
          Except InsertErr DatasetState) = .error .mediaTypeError by
        rw [hv]; rfl]
      rfl
    rw [hx]

/-- Witness for the amended C8 theorem at concrete inputs. -/
theorem mediaTypeGuardRules_witness :
    setMediaType ⟨some .image, 1, []⟩ .video = .error .valueError
    ∧ addSamplesBatch ⟨some .image, 1, []⟩ [⟨.video, []⟩] true true
      = .error .mediaTypeError :=
  mediaTypeGuardRules ⟨some .image, 1, []⟩ .video .image ⟨.video, []⟩ [] true
    (by simp) rfl (by simp)

/-! ## The pipeline merge strategy (`_merge_samples_pipeline`,
dataset.py:4832-5123) -/

/-- One stored sample document, restricted to the fields the merge claims
touch: the database identity `_id` and the default key field `filepath`. -/
structure SampleDoc where
  sid : Nat
  filepath : String
deriving DecidableEq, Repr

/-- Modelled from the spec: `SampleCollection._get_db_fields_map` (used at
dataset.py:4847-4849 to translate the caller's `key_field`) lives in
`fiftyone/core/collections.py`, which is not part of the sources.  Per the
spec's data model, a record "has an identity assigned on first persistence",
exposed to callers as `id` and persisted under the store's `_id`; the map
therefore sends the public name `id` to the database name `_id` and is the
identity on the ordinary fields modelled here. -/
def dbFieldsMap (f : String) : String :=
  if f = "id" then "_id" else f

/-- The merge key after `db_fields_map` translation, as the `$merge` stage
sees it: the database identity `_id`, or the ordinary field `filepath`. -/
inductive MergeOn
  | onId
  | onFilepath
deriving DecidableEq, Repr

/-- dataset.py:4939-5025 — the effect of the compiled sample pipeline plus
its terminal `$merge` step, per source document.

The pipeline always ends with `{"$unset": ["_id"]}`: dataset.py:4968 adds
`id` to the omitted fields, dataset.py:4969 discards only the *translated*
key field (`_id` for an id-keyed merge, so the public name `id` is never
discarded), and dataset.py:4974 subtracts the default fields, from which
`id` was removed at dataset.py:4937 — hence every source document reaches
`$merge` without `_id`.

The backing store's documented `$merge` semantics: a document lacking the
`on` field `_id` is assigned a freshly generated id before matching, and a
fresh id never matches an existing document; matching `on` a regular field
compares stored values.  A matched document is either kept as-is
(`whenMatched: keepExisting`) or rewritten by the `_merge_docs` expression,
both of which preserve the destination document's `_id` and key field, so on
the two modelled fields a match leaves the destination document unchanged.
An unmatched document is inserted with a fresh id (`whenNotMatched: insert`)
or discarded (`whenNotMatched: discard`) per `insert_new`. -/
def mergeSampleDoc (keyOn : MergeOn) (insertNew : Bool)
    (acc : List SampleDoc × Nat) (d : SampleDoc) : List SampleDoc × Nat :=
  match keyOn with
  | .onId =>
    if insertNew then (acc.1 ++ [⟨acc.2, d.filepath⟩], acc.2 + 1) else acc
  | .onFilepath =>
    if acc.1.any (fun g => g.filepath = d.filepath) then acc
    else if insertNew then (acc.1 ++ [⟨acc.2, d.filepath⟩], acc.2 + 1)
    else acc

/-- The samples `$merge` stage over the snapshot `src` of the compiled
source pipeline's output, into the destination collection `dst`; `fresh` is
the next generated id. -/
def mergeSamplesStage (keyOn : MergeOn) (insertNew : Bool)
    (dst src : List SampleDoc) (fresh : Nat) : List SampleDoc × Nat :=
  src.foldl (mergeSampleDoc keyOn insertNew) (dst, fresh)

/-- dataset.py:4832-5123 restricted to a non-video dataset (no frame phase):
the merge executes the source pipeline over a snapshot of the source
samples and applies the terminal `$merge` into the destination
collection. -/
def mergeSamplesPipelineImage (dst src : List SampleDoc) (keyOn : MergeOn)
    (insertNew : Bool) (fresh : Nat) : List SampleDoc :=
  (mergeSamplesStage keyOn insertNew dst src fresh).1

/-- The documents inserted for the source snapshot under an id-keyed merge:
each gets the next generated id. -/
def assignFreshIds : List SampleDoc → Nat → List SampleDoc
  | [], _ => []
  | d :: rest, fresh => ⟨fresh, d.filepath⟩ :: assignFreshIds rest (fresh + 1)

theorem assignFreshIds_length (src : List SampleDoc) :
    ∀ fresh, (assignFreshIds src fresh).length = src.length := by
  induction src with
  | nil => intro fresh; rfl
  | cons d rest ih => intro fresh; simp [assignFreshIds, ih]

theorem mergeSamplesStage_onId (src : List SampleDoc) :
    ∀ (dst : List SampleDoc) (fresh : Nat),
      mergeSamplesStage .onId true dst src fresh
        = (dst ++ assignFreshIds src fresh, fresh + src.length) := by
  induction src with
  | nil => intro dst fresh; simp [mergeSamplesStage, assignFreshIds]
  | cons d rest ih =>
    intro dst fresh
    have step : mergeSampleDoc .onId true (dst, fresh) d
        = (dst ++ [⟨fresh, d.filepath⟩], fresh + 1) := rfl
    calc mergeSamplesStage .onId true dst (d :: rest) fresh
        = mergeSamplesStage .onId true (dst ++ [⟨fresh, d.filepath⟩]) rest
            (fresh + 1) := by
          simp [mergeSamplesStage, List.foldl_cons, step]
      _ = (dst ++ assignFreshIds (d :: rest) fresh,
            fresh + (rest.length + 1)) := by
          rw [ih]
          simp [assignFreshIds]
          omega

/-- C6 counterexample: merging a one-sample dataset into itself with the
identity key (`key_field="id"`, translated to `_id`), `overwrite=True`,
`skip_existing=False` (and the default `insert_new=True`) yields two
records, not one: the compiled pipeline strips `_id` from every source
document, so the id-keyed `$merge` never matches and re-inserts the sample
under a fresh id; the record count is changed, so the claim is false as
stated. -/
theorem selfMergeIdKeyDuplicates :
    mergeSamplesPipelineImage [⟨1, "a.jpg"⟩] [⟨1, "a.jpg"⟩] .onId true 100
      = [⟨1, "a.jpg"⟩, ⟨100, "a.jpg"⟩]
    ∧ (mergeSamplesPipelineImage [⟨1, "a.jpg"⟩] [⟨1, "a.jpg"⟩] .onId true
        100).length = 2 :=
  ⟨rfl, rfl⟩

/-- C6 (amended): merging a dataset into itself via the pipeline strategy
with `key_field="id"`, `overwrite=True`, `skip_existing=False` doubles the
record count: since the compiled source pipeline always unsets `_id`, no
source document matches on the identity key, and every sample is re-inserted
as a new record with a fresh id; the original records themselves are left
unchanged (the result is the originals followed by the fresh-id copies). -/
theorem selfMergeIdKeyDoubles (samples : List SampleDoc) (fresh : Nat) :
    mergeSamplesPipelineImage samples samples .onId true fresh
      = samples ++ assignFreshIds samples fresh
    ∧ (mergeSamplesPipelineImage samples samples .onId true fresh).length
      = 2 * samples.length := by
  have h := mergeSamplesStage_onId samples samples fresh
  constructor
  · simp [mergeSamplesPipelineImage, h]
  · simp [mergeSamplesPipelineImage, h, assignFreshIds_length]
    omega

/-! ## Video merge and frame consistency (`_merge_samples_pipeline` for
video datasets, dataset.py:4916-5123; `_index_frames` dataset.py:5359-5379;
`_finalize_frames` dataset.py:5399-5412) -/

/-- One stored frame document, restricted to the fields the merge protocol
touches: `_id`, the back-reference `_sample_id` (`none` when the field is
unset), `frame_number`, and the temporary `_merge_key` field. -/
structure FrameDoc where
  fid : Nat
  sampleId : Option Nat
  frameNumber : Nat
  mergeKey : Option String
deriving DecidableEq, Repr

/-- A video dataset: its sample collection and its frame collection. -/
structure VideoDataset where
  samples : List SampleDoc
  frames : List FrameDoc
deriving DecidableEq, Repr

/-- dataset.py:5359-5379 — `_index_frames`: stamp every frame with its
parent sample's key-field value (here `filepath`) in the temporary
`_merge_key` field; frames are reached through their parent sample's
`frames` list, so a frame whose back-reference matches no sample is left
untouched. -/
def indexFrames (samples : List SampleDoc) (frames : List FrameDoc) :
    List FrameDoc :=
  frames.map fun f =>
    match samples.find? (fun s => some s.sid = f.sampleId) with
    | some s => { f with mergeKey := some s.filepath }
    | none => f

/-- dataset.py:5052-5103 — the effect of the frames `$merge` step per
source-frame document.  The compiled frame pipeline unsets `id` and
`_sample_id` (dataset.py:5075-5080) while retaining `_merge_key` and
`frame_number`; the step merges `on: [_merge_key, frame_number]` with
`whenMatched` either `keepExisting` (`skip_existing=True`) or the
`_merge_docs` expression (both of which preserve the destination frame's
`_id`, back-reference, key and frame number, the incoming document carrying
no `_sample_id`), and `whenNotMatched` hard-coded to `"insert"`
(dataset.py:5100), so an unmatched source frame is always inserted — with a
fresh id and no back-reference. -/
def mergeFrameDoc (acc : List FrameDoc × Nat) (f : FrameDoc) :
    List FrameDoc × Nat :=
  if acc.1.any (fun g =>
      decide (g.mergeKey = f.mergeKey) && decide (g.frameNumber = f.frameNumber)) then
    acc
  else
    (acc.1 ++ [⟨acc.2, none, f.frameNumber, f.mergeKey⟩], acc.2 + 1)

/-- The frames `$merge` stage over the snapshot `src` of the compiled frame
pipeline's output. -/
def mergeFramesStage (dst src : List FrameDoc) (fresh : Nat) :
    List FrameDoc × Nat :=
  src.foldl mergeFrameDoc (dst, fresh)

/-- dataset.py:5399-5412 — `_finalize_frames`: build the key → id map from
the post-merge destination samples, then, for each distinct `_merge_key`
value among the destination frames, set those frames' `_sample_id` from the
map.  The Python builds the update list eagerly with `ids_map[key]`, so a
frame key that is absent from the destination samples raises a `KeyError`
before any update is written. -/
def finalizeFrames (samples : List SampleDoc) (frames : List FrameDoc) :
    Except String (List FrameDoc) :=
  let distinctKeys := (frames.filterMap (fun f => f.mergeKey)).eraseDups
  match distinctKeys.find? (fun k => !(samples.any (fun s => s.filepath = k))) with
  | some k => .error k
  | none =>
    .ok (frames.map fun f =>
      match f.mergeKey with
      | some k => { f with sampleId := (samples.find? (fun s => s.filepath = k)).map (·.sid) }
      | none => f)

/-- The outcome of a video pipeline merge: completion with the final
destination state, or the uncaught `KeyError` of `_finalize_frames`,
together with the destination state left behind in the database at the
moment of the crash (samples merged, frames merged but not re-linked, the
temporary `_merge_key` field not yet cleaned up). -/
inductive VideoMergeOutcome
  | done (dst : VideoDataset)
  | keyError (key : String) (dstLeft : VideoDataset)
deriving DecidableEq, Repr

/-- dataset.py:4916-5123 — `_merge_samples_pipeline` for two video datasets
keyed on `filepath` (with `fields=None`, `omit_fields=None`): stamp
`_merge_key` on the frames of both sides, run the samples `$merge`, run the
frames `$merge` (`whenNotMatched` always `"insert"`), then `_finalize_frames`
rewrites every destination frame's `_sample_id` from the post-merge key → id
map and the temporary key field is cleaned up.  An uncaught `KeyError` in
`_finalize_frames` aborts the merge, leaving the destination as the frame
`$merge` left it. -/
def mergeSamplesPipelineVideo (dst src : VideoDataset)
    (insertNew : Bool) (fresh : Nat) : VideoMergeOutcome :=
  let dstFrames0 := indexFrames dst.samples dst.frames
  let srcFrames0 := indexFrames src.samples src.frames
  let sres := mergeSamplesStage .onFilepath insertNew dst.samples src.samples fresh
  let fres := mergeFramesStage dstFrames0 srcFrames0 sres.2
  match finalizeFrames sres.1 fres.1 with
  | .error k => .keyError k ⟨sres.1, fres.1⟩
  | .ok frames =>
    .done ⟨sres.1, frames.map (fun f => { f with mergeKey := none })⟩

/-- The C2 invariant: every frame's back-reference `_sample_id` resolves to
an existing sample of the same dataset. -/
def framesConsistent (ds : VideoDataset) : Bool :=
  ds.frames.all fun f =>
    match f.sampleId with
    | some i => ds.samples.any (fun s => s.sid = i)
    | none => false

/-- C2: the crash of an `insert_new=False` video merge.  Destination: one
sample `a.mp4` (id 1) with one frame; source: one sample `b.mp4` (id 2) with
one frame.  The sample `$merge` discards the unmatched `b.mp4`
(`whenNotMatched: discard`), but the frame `$merge` — `whenNotMatched`
hard-coded to `"insert"` at dataset.py:5100 — inserts its frame anyway, so
`_finalize_frames` raises `KeyError("b.mp4")` and the merge aborts, leaving
the destination with a frame whose `_merge_key` names a sample absent from
the destination and whose back-reference is unset: the claimed invariant
fails and the merge does not complete. -/
theorem videoMergeInsertNewFalseOrphansFrames :
    mergeSamplesPipelineVideo
        ⟨[⟨1, "a.mp4"⟩], [⟨10, some 1, 1, none⟩]⟩
        ⟨[⟨2, "b.mp4"⟩], [⟨20, some 2, 1, none⟩]⟩
        false 100
      = .keyError "b.mp4"
          ⟨[⟨1, "a.mp4"⟩],
           [⟨10, some 1, 1, some "a.mp4"⟩, ⟨100, none, 1, some "b.mp4"⟩]⟩
    ∧ framesConsistent
        ⟨[⟨1, "a.mp4"⟩],
         [⟨10, some 1, 1, some "a.mp4"⟩, ⟨100, none, 1, some "b.mp4"⟩]⟩
      = false := by
  constructor
  · rfl
  · rfl

end Fiftyone
